import Mathlib

/-!
Verification development for the MosesFitness planner (src/app.py).

The repository ships only `app.py`; the engine modules it imports
(`utils.meal_planning`, `utils.meal_customization`, `utils.workout_planner`,
`utils.meal_customization.validate_meal_plan`) are declared and called there
but their code is not in the repository, so those operations are modelled
from the specification (each such definition carries a doc comment saying
so).  Everything concerning `app.py` itself (the per-slot targets passed to
the alternative finder, the session-state plan update, the input-validation
gates, the save path, `validate_exercise_library`) is translated directly
from the source.
-/

namespace MosesFitness

/-- A meal item of the Content Library (spec §3 MealItem; `app.py` reads the
fields `name`, `calories`, `protein`, `link` of each plan entry). -/
structure MealItem where
  name : String
  meal_type : String
  calories : ℚ
  protein : ℚ
  cuisine_tags : List String
  dietary_tags : List String
deriving DecidableEq, Repr

/-- The three meal slots of a day (`app.py` iterates the per-day mapping
produced by the generator; spec §4.2: exactly 3 meal slots). -/
def mealTypes : List String := ["Breakfast", "Lunch", "Dinner"]

/-- The seven days of a weekly plan (spec §4.2: 7 days). -/
def weekDays : List String :=
  ["Monday", "Tuesday", "Wednesday", "Thursday", "Friday", "Saturday", "Sunday"]

/-- Modelled from the spec: the dietary hard filter of the Constraint
Matcher (`utils.meal_planning` is not in the repository).  Spec §4.1: an
item failing ANY categorical filter is removed; §8: no returned item
carries an excluded dietary tag; the UI offers a literal "None" choice
meaning no restriction. -/
def passesDietary (restrictions : List String) (m : MealItem) : Bool :=
  restrictions.all (fun r => r == "None" || m.dietary_tags.contains r)

/-- Modelled from the spec: the cuisine preference filter of the Constraint
Matcher (`utils.meal_planning` is not in the repository).  The UI offers a
literal "Any" choice matching every cuisine. -/
def passesCuisine (prefs : List String) (m : MealItem) : Bool :=
  prefs.any (fun c => c == "Any" || m.cuisine_tags.contains c)

/-- Modelled from the spec: the categorical filtering stage of the
Constraint Matcher over the meal-type-specific pool (spec §4.1, §4.2). -/
def filterMeals (restrictions prefs : List String) (mt : String)
    (lib : List MealItem) : List MealItem :=
  lib.filter (fun m => m.meal_type == mt && passesDietary restrictions m
    && passesCuisine prefs m)

/-- Modelled from the spec: the ranking score of the Constraint Matcher —
weighted absolute distance between the candidate's numeric profile
(calories, protein) and the per-slot target; lower is better (spec §4.1). -/
def mealScore (tc tp : ℚ) (m : MealItem) : ℚ :=
  |m.calories - tc| + |m.protein - tp|

/-- Modelled from the spec: the ranking stage of the Constraint Matcher —
candidates ordered by ascending score, ties broken by insertion order in
the library (spec §4.1); a stable sort realises exactly that. -/
def rankMeals (tc tp : ℚ) (pool : List MealItem) : List MealItem :=
  pool.mergeSort (fun a b => decide (mealScore tc tp a ≤ mealScore tc tp b))

/-- The per-slot numeric target: an even split of the daily target across
the three meal slots, independent of the meal type.  This is both what
`app.py` passes to the alternative finder (lines 196–197:
`nutritional_targets['calories'] / 3`, `.../protein'] / 3`, the same
expression for every `meal_type`) and the spec's even-split policy for the
generator (§4.2). -/
def perSlotTarget (dailyCalories dailyProtein : ℚ) (meal_type : String) : ℚ × ℚ :=
  (dailyCalories / 3, dailyProtein / 3)

/-- Modelled from the spec: one slot's selection in the Meal Plan Generator
(`utils.meal_planning.generate_meal_plan` is not in the repository) — run
the Constraint Matcher on the meal-type pool at the per-slot target and
take the top-ranked candidate (spec §4.2). -/
def pickMeal (dailyCalories dailyProtein : ℚ) (restrictions prefs : List String)
    (lib : List MealItem) (mt : String) : Option MealItem :=
  let t := perSlotTarget dailyCalories dailyProtein mt
  (rankMeals t.1 t.2 (filterMeals restrictions prefs mt lib)).head?

/-- Modelled from the spec: select an item for every slot of a day; if any
slot has no candidate the whole day fails (spec §4.2: no partial plan). -/
def pickSlots (dailyCalories dailyProtein : ℚ) (restrictions prefs : List String)
    (lib : List MealItem) : List String → Option (List (String × MealItem))
  | [] => some []
  | mt :: rest =>
    match pickMeal dailyCalories dailyProtein restrictions prefs lib mt,
          pickSlots dailyCalories dailyProtein restrictions prefs lib rest with
    | some m, some r => some ((mt, m) :: r)
    | _, _ => none

/-- Modelled from the spec: `generate_meal_plan` of `utils.meal_planning`
(not in the repository).  Spec §4.2: for each of 7 days and each of 3 meal
slots, even-split per-slot target, Constraint Matcher on the meal-type
pool, top candidate; a slot with no candidate fails the full plan with a
structured failure (`none`), never a partial plan. -/
def generate_meal_plan (dailyCalories dailyProtein : ℚ)
    (restrictions prefs : List String) (lib : List MealItem) :
    Option (List (String × List (String × MealItem))) :=
  match pickSlots dailyCalories dailyProtein restrictions prefs lib mealTypes with
  | none => none
  | some daySlots => some (weekDays.map (fun d => (d, daySlots)))

/-- Modelled from the spec: `get_alternative_meals` of
`utils.meal_customization` (not in the repository).  Spec §4.3: run the
Constraint Matcher over the meal-type pool excluding `current_meal_name`,
return up to K = 5 top-ranked items. -/
def get_alternative_meals (meal_type : String) (target_calories target_protein : ℚ)
    (restrictions prefs : List String) (current_meal_name : String)
    (lib : List MealItem) : List MealItem :=
  (rankMeals target_calories target_protein
    ((filterMeals restrictions prefs meal_type lib).filter
      (fun m => !(m.name == current_meal_name)))).take 5

/-- A meal plan as `app.py` holds it in session state: mapping
Day → MealSlot → item.  Modelled as a total function over (day, slot) names
so single-slot dictionary assignment becomes pointwise update. -/
def MealPlan : Type := String → String → MealItem

/-- The targets `app.py` passes to `get_alternative_meals` for a slot
(lines 194–201): `calories / 3` and `protein / 3` of the session's daily
nutritional targets, the same expression for every day and meal type. -/
def altCallTargets (dailyCalories dailyProtein : ℚ) (meal_type : String) : ℚ × ℚ :=
  perSlotTarget dailyCalories dailyProtein meal_type

/-- Showing alternatives (`app.py` lines 194–206): the alternative finder is
called and its result displayed; the session's meal plan is not touched.
Returns the short-list together with the (unchanged) plan. -/
def showAlternatives (plan : MealPlan) (meal_type : String)
    (dailyCalories dailyProtein : ℚ) (restrictions prefs : List String)
    (current_meal_name : String) (lib : List MealItem) :
    List MealItem × MealPlan :=
  let t := altCallTargets dailyCalories dailyProtein meal_type
  (get_alternative_meals meal_type t.1 t.2 restrictions prefs current_meal_name lib,
   plan)

/-- Selecting an alternative (`app.py` line 209):
`st.session_state.current_meal_plan[day][meal_type] = alt` — a single-slot
dictionary assignment. -/
def selectAlternative (plan : MealPlan) (day meal_type : String)
    (alt : MealItem) : MealPlan :=
  fun d mt => if d = day ∧ mt = meal_type then alt else plan d mt

/-- The meal-plan step of `calculate_nutrition` (`app.py` lines 302–314):
generate a new meal plan only if none exists; on generator failure the
session's stored plan is left unset.  Returns the resulting stored plan and
whether `generate_meal_plan` was invoked. -/
def calculateNutritionPlanStep (existing : Option (List (String × List (String × MealItem))))
    (dailyCalories dailyProtein : ℚ) (restrictions prefs : List String)
    (lib : List MealItem) :
    Option (List (String × List (String × MealItem))) × Bool :=
  match existing with
  | some p => (some p, false)
  | none =>
    match generate_meal_plan dailyCalories dailyProtein restrictions prefs lib with
    | some mp => (some mp, true)
    | none => (none, true)

/-- The function `validate_exercise_library` (`app.py` lines 435–440): a
placeholder that returns `True` for every input. -/
def validate_exercise_library (lib : List (String × List String)) : Bool :=
  true

/-- The exercise-library gate of `generate_new_workout` (`app.py` lines
389–392): generation is blocked when `validate_exercise_library` returns
`False`. -/
def libraryGateBlocks (lib : List (String × List String)) : Bool :=
  !(validate_exercise_library lib)

/-- The input-validation gate of `generate_new_workout` (`app.py` lines
372–379): with empty `available_days` or an empty `muscle_groups` mapping
the function returns `None` before `generate_workout_plan` is reached. -/
def generateNewWorkoutGate (available_days : List String)
    (muscle_groups : List (String × List String)) : Bool :=
  !available_days.isEmpty && !muscle_groups.isEmpty

/-- The "Generate Workout Plan" button gate of `main` (`app.py` lines
590–594): generation proceeds only when at least one day is selected and at
least one day's muscle-group list is non-empty. -/
def mainWorkoutGate (available_days : List String)
    (muscle_groups : List (String × List String)) : Bool :=
  !available_days.isEmpty && muscle_groups.any (fun p => !p.2.isEmpty)

/-- Whether the main workout flow ever reaches the `generate_workout_plan`
call: `main`'s gate admits the inputs and then `generate_new_workout`'s own
checks admit them (`app.py` lines 590–608 then 372–403). -/
def workoutGenerationInvoked (available_days : List String)
    (muscle_groups : List (String × List String)) : Bool :=
  mainWorkoutGate available_days muscle_groups
    && generateNewWorkoutGate available_days muscle_groups

/-- The externally observable actions of the "Save Current Meal Plan"
button handler (`app.py` lines 645–663). -/
inductive SaveAction where
  | getDatabase
  | getCurrentUser
  | validatePlan
  | saveMealPlan
  | showSuccess
deriving DecidableEq, Repr

/-- The happy-path action sequence of the "Save Current Meal Plan" handler
(`app.py` lines 645–659): get a database session, resolve the current user,
call `save_meal_plan` on the session's plan and targets, report success.
`validate_meal_plan` (imported at `app.py` line 14) appears nowhere in it. -/
def saveCurrentMealPlanPath : List SaveAction :=
  [SaveAction.getDatabase, SaveAction.getCurrentUser,
   SaveAction.saveMealPlan, SaveAction.showSuccess]

/-- An exercise of the Content Library (spec §3 ExerciseEntry). -/
structure ExerciseEntry where
  name : String
  muscle_group : String
  subgroup : String
  required_fitness_level : String
  equipment_tier : String
deriving DecidableEq, Repr

/-- Modelled from the spec: the categorical filtering stage of the
Constraint Matcher for exercises — fitness level and available equipment
are hard filters over the muscle-group pool (spec §4.1, §4.4;
`utils.workout_planner` is not in the repository). -/
def exercisePool (lib : List ExerciseEntry) (fitness_level : String)
    (equipment : List String) (group : String) : List ExerciseEntry :=
  lib.filter (fun e => e.muscle_group == group
    && e.required_fitness_level == fitness_level
    && decide (e.equipment_tier ∈ equipment))

/-- Modelled from the spec: the fixed per-exercise time cost approximating
"fits remaining session time" (spec §4.4). -/
def timePerExercise : Nat := 10

/-- Modelled from the spec: draw up to `n` exercises for one muscle group,
preferring exercises not yet used this week; when the fresh pool is smaller
than the demand, already-used exercises may be recycled, and a group for
which that actually happens is flagged in the recycle report (spec §4.4:
repetition permitted only when the pool is smaller than the demand, and it
must be reported; mere pool exhaustion without reuse stops accumulating). -/
def pickForGroup (candidates : List ExerciseEntry) (n : Nat)
    (used : List String) : List ExerciseEntry × Bool :=
  let fresh := candidates.filter (fun e => decide (e.name ∉ used))
  if n ≤ fresh.length then (fresh.take n, false)
  else
    let reusable := candidates.filter (fun e => decide (e.name ∈ used))
    if reusable.isEmpty then (fresh, false)
    else (fresh ++ reusable.take (n - fresh.length), true)

/-- Modelled from the spec: process the (day, group, quota) slots of the
week in order, threading the set of already-scheduled exercise names and
the list of recycled groups; a slot whose categorical pool is empty fails
the whole generation (spec §4.4). -/
def processSlots (lib : List ExerciseEntry) (fitness_level : String)
    (equipment : List String) :
    List (String × String × Nat) → List String → List String →
    Option (List (String × String × List String) × List String)
  | [], _used, recycled => some ([], recycled)
  | (d, g, n) :: rest, used, recycled =>
    if (exercisePool lib fitness_level equipment g).isEmpty then none
    else
      match processSlots lib fitness_level equipment rest
            ((pickForGroup (exercisePool lib fitness_level equipment g) n
                used).1.map (fun e => e.name) ++ used)
            (if (pickForGroup (exercisePool lib fitness_level equipment g) n
                used).2
             then g :: recycled else recycled) with
      | none => none
      | some (entries, recFinal) =>
        some ((d, g, (pickForGroup (exercisePool lib fitness_level equipment g)
          n used).1.map (fun e => e.name)) :: entries, recFinal)

/-- Modelled from the spec: the (day, group, quota) slots of one day — the
day's muscle groups from the per-day mapping, each with an even share of
the day's exercise budget (spec §4.4). -/
def daySlots (time_per_session : Nat)
    (muscle_groups : List (String × List String)) (d : String) :
    List (String × String × Nat) :=
  let gs := (muscle_groups.lookup d).getD []
  let quota := max 1 (time_per_session / timePerExercise / max 1 gs.length)
  gs.map (fun g => (d, g, quota))

/-- Modelled from the spec: `generate_workout_plan` of
`utils.workout_planner` (not in the repository).  Spec §4.4: per available
day and muscle group, draw exercises filtered by fitness level and
equipment, de-duplicated across the week, recycling (and reporting) groups
whose pool is smaller than the demand; an empty categorical pool fails the
whole generation.  Returns the schedule entries together with the recycled
groups. -/
def generate_workout_plan (fitness_level : String) (goals : List String)
    (available_days : List String) (equipment_available : List String)
    (time_per_session : Nat) (muscle_groups : List (String × List String))
    (lib : List ExerciseEntry) :
    Option (List (String × String × List String) × List String) :=
  if available_days.isEmpty then none
  else processSlots lib fitness_level equipment_available
    (available_days.flatMap (daySlots time_per_session muscle_groups)) [] []

/-- All exercise names of a generated schedule, in schedule order. -/
def scheduledNames (entries : List (String × String × List String)) :
    List String :=
  (entries.map (fun e => e.2.2)).flatten

/-- A concrete meal item used to evaluate the development on closed
inputs. -/
def oatmealMeal : MealItem :=
  { name := "Oatmeal", meal_type := "Breakfast", calories := 300, protein := 10,
    cuisine_tags := ["American"], dietary_tags := ["Vegetarian"] }

/-- A concrete non-vegan dinner item used to evaluate the development on
closed inputs. -/
def steakMeal : MealItem :=
  { name := "Steak", meal_type := "Dinner", calories := 700, protein := 50,
    cuisine_tags := ["American"], dietary_tags := [] }

/-- A concrete bodyweight chest exercise used to evaluate the development
on closed inputs. -/
def pushupExercise : ExerciseEntry :=
  { name := "Pushup", muscle_group := "Chest", subgroup := "Upper Chest",
    required_fitness_level := "Beginner", equipment_tier := "None/Bodyweight" }

/-- A concrete bodyweight leg exercise used to evaluate the development on
closed inputs. -/
def squatExercise : ExerciseEntry :=
  { name := "Squat", muscle_group := "Legs", subgroup := "Quads",
    required_fitness_level := "Beginner", equipment_tier := "None/Bodyweight" }

/-- A concrete two-exercise library used to evaluate the development on
closed inputs. -/
def sampleExerciseLib : List ExerciseEntry := [pushupExercise, squatExercise]

/-!  Theorems, one per claim of the frozen claim list.  -/

/-- C1: the per-slot numeric target is an even split of the daily target
across the three meal slots — both the generator's per-slot target and the
target `app.py` passes to the alternative finder equal the daily value
divided by 3, with no meal-type-specific weighting (the target is the same
for any two meal types). -/
theorem C1_per_slot_target_even_split (dailyCalories dailyProtein : ℚ)
    (mt mt2 : String) :
    perSlotTarget dailyCalories dailyProtein mt
      = (dailyCalories / 3, dailyProtein / 3)
    ∧ altCallTargets dailyCalories dailyProtein mt
      = (dailyCalories / 3, dailyProtein / 3)
    ∧ perSlotTarget dailyCalories dailyProtein mt
      = perSlotTarget dailyCalories dailyProtein mt2 :=
  ⟨rfl, rfl, rfl⟩

/-- C2: the alternative finder never returns the current item's name and
returns at most K = 5 items. -/
theorem C2_alternatives_exclude_current_and_bounded (meal_type : String)
    (target_calories target_protein : ℚ) (restrictions prefs : List String)
    (current : String) (lib : List MealItem) :
    current ∉ (get_alternative_meals meal_type target_calories target_protein
        restrictions prefs current lib).map (fun m => m.name)
    ∧ (get_alternative_meals meal_type target_calories target_protein
        restrictions prefs current lib).length ≤ 5 := by
  constructor
  · intro hmem
    simp only [get_alternative_meals, List.mem_map] at hmem
    obtain ⟨m, hm, hname⟩ := hmem
    have h1 : m ∈ rankMeals target_calories target_protein
        ((filterMeals restrictions prefs meal_type lib).filter
          (fun m => !(m.name == current))) := List.mem_of_mem_take hm
    rw [rankMeals, List.mem_mergeSort] at h1
    have h2 := List.of_mem_filter h1
    rw [hname] at h2
    simp at h2
  · exact List.length_take_le 5 _

/-- C3: showing alternatives leaves the meal plan unchanged, and selecting
an alternative replaces exactly the targeted (day, slot) entry: the chosen
slot now holds the alternative and every other (day, slot) entry is the
plan's previous value. -/
theorem C3_alternative_finder_frame (plan : MealPlan) (day meal_type : String)
    (dailyCalories dailyProtein : ℚ) (restrictions prefs : List String)
    (current : String) (lib : List MealItem) (alt : MealItem)
    (d2 s2 : String) (h : ¬(d2 = day ∧ s2 = meal_type)) :
    (showAlternatives plan meal_type dailyCalories dailyProtein restrictions
      prefs current lib).2 = plan
    ∧ selectAlternative plan day meal_type alt day meal_type = alt
    ∧ selectAlternative plan day meal_type alt d2 s2 = plan d2 s2 := by
  refine ⟨rfl, ?_, ?_⟩
  · simp [selectAlternative]
  · simp [selectAlternative, h]

/-- Witness for C3 at concrete inputs: replacing Monday's Lunch leaves
Tuesday's Lunch untouched. -/
theorem C3_alternative_finder_frame_witness :
    (showAlternatives (fun _ _ => oatmealMeal) "Lunch" 2000 150 ["None"]
      ["Any"] "Oatmeal" []).2 = (fun _ _ => oatmealMeal)
    ∧ selectAlternative (fun _ _ => oatmealMeal) "Monday" "Lunch" steakMeal
        "Monday" "Lunch" = steakMeal
    ∧ selectAlternative (fun _ _ => oatmealMeal) "Monday" "Lunch" steakMeal
        "Tuesday" "Lunch" = (fun (_ _ : String) => oatmealMeal) "Tuesday" "Lunch" :=
  C3_alternative_finder_frame (fun _ _ => oatmealMeal) "Monday" "Lunch"
    2000 150 ["None"] ["Any"] "Oatmeal" [] steakMeal "Tuesday" "Lunch"
    (by decide)

/-- If some required slot's selection fails, the whole day's slot selection
fails. -/
lemma pickSlots_eq_none_of_mem (dailyCalories dailyProtein : ℚ)
    (restrictions prefs : List String) (lib : List MealItem)
    (mts : List String) (mt : String) (hmt : mt ∈ mts)
    (h : pickMeal dailyCalories dailyProtein restrictions prefs lib mt = none) :
    pickSlots dailyCalories dailyProtein restrictions prefs lib mts = none := by
  induction mts with
  | nil => cases hmt
  | cons a rest ih =>
    rcases List.mem_cons.mp hmt with h1 | h1
    · subst h1
      cases hr : pickSlots dailyCalories dailyProtein restrictions prefs lib rest
        <;> simp [pickSlots, h, hr]
    · cases ha : pickMeal dailyCalories dailyProtein restrictions prefs lib a
        <;> simp [pickSlots, ha, ih h1]

/-- C4: if the filtered candidate pool for some meal slot is empty, the
generator fails for the whole plan (`none`, no partial plan), and the
caller in `calculate_nutrition` leaves the session's stored plan unset. -/
theorem C4_empty_slot_fails_whole_plan (dailyCalories dailyProtein : ℚ)
    (restrictions prefs : List String) (lib : List MealItem) (mt : String)
    (hmt : mt ∈ mealTypes)
    (hempty : filterMeals restrictions prefs mt lib = []) :
    generate_meal_plan dailyCalories dailyProtein restrictions prefs lib = none
    ∧ (calculateNutritionPlanStep none dailyCalories dailyProtein restrictions
        prefs lib).1 = none := by
  have hpick : pickMeal dailyCalories dailyProtein restrictions prefs lib mt
      = none := by
    simp [pickMeal, rankMeals, hempty]
  have hslots := pickSlots_eq_none_of_mem dailyCalories dailyProtein
    restrictions prefs lib mealTypes mt hmt hpick
  refine ⟨?_, ?_⟩
  · simp [generate_meal_plan, hslots]
  · simp [calculateNutritionPlanStep, generate_meal_plan, hslots]

/-- Witness for C4 at concrete inputs: a library whose only dinner is not
vegan yields a structured failure for a vegan request, and the session's
plan stays unset. -/
theorem C4_empty_slot_fails_whole_plan_witness :
    generate_meal_plan 2000 150 ["Vegan"] ["Any"] [steakMeal] = none
    ∧ (calculateNutritionPlanStep none 2000 150 ["Vegan"] ["Any"]
        [steakMeal]).1 = none :=
  C4_empty_slot_fails_whole_plan 2000 150 ["Vegan"] ["Any"] [steakMeal]
    "Dinner" (by decide) (by decide)

/-- C5: with empty `available_days`, or with no muscle group selected for
any day, the workout flow of `app.py` (the button gate of `main` followed
by `generate_new_workout`'s own input validation) rejects the input and
`generate_workout_plan` is never reached. -/
theorem C5_invalid_workout_input_rejected (available_days : List String)
    (muscle_groups : List (String × List String))
    (h : available_days = [] ∨ ∀ p ∈ muscle_groups, p.2 = []) :
    workoutGenerationInvoked available_days muscle_groups = false := by
  rcases h with h | h
  · subst h; rfl
  · simp only [workoutGenerationInvoked, mainWorkoutGate, Bool.and_eq_false_iff]
    left
    simp only [Bool.and_eq_false_iff, List.any_eq_false]
    right
    intro p hp
    simp [h p hp]

/-- Witness for C5 at concrete inputs: a selected day whose muscle-group
list is empty never reaches `generate_workout_plan`. -/
theorem C5_invalid_workout_input_rejected_witness :
    workoutGenerationInvoked ["Monday"] [("Monday", [])] = false :=
  C5_invalid_workout_input_rejected ["Monday"] [("Monday", [])]
    (Or.inr (by intro p hp; simp at hp; simp [hp]))

/-- C6: plan generation is deterministic — both generators are functions of
their inputs and the Content Library, so two calls with identical inputs
and an unchanged library yield identical plans. -/
theorem C6_generation_deterministic (dailyCalories dailyProtein : ℚ)
    (restrictions prefs : List String) (mealLib : List MealItem)
    (fitness_level : String) (goals available_days equipment : List String)
    (time_per_session : Nat) (muscle_groups : List (String × List String))
    (exLib : List ExerciseEntry) :
    generate_meal_plan dailyCalories dailyProtein restrictions prefs mealLib
      = generate_meal_plan dailyCalories dailyProtein restrictions prefs mealLib
    ∧ generate_workout_plan fitness_level goals available_days equipment
        time_per_session muscle_groups exLib
      = generate_workout_plan fitness_level goals available_days equipment
          time_per_session muscle_groups exLib :=
  ⟨rfl, rfl⟩

/-- A non-recycling draw is a sublist of the fresh (not yet used) pool. -/
lemma pickForGroup_false_sublist (candidates : List ExerciseEntry) (n : Nat)
    (used : List String) (picked : List ExerciseEntry)
    (h : pickForGroup candidates n used = (picked, false)) :
    List.Sublist picked (candidates.filter (fun e => decide (e.name ∉ used))) := by
  unfold pickForGroup at h
  by_cases hn : n ≤ (candidates.filter (fun e => decide (e.name ∉ used))).length
  · rw [if_pos hn, Prod.mk.injEq] at h
    rw [← h.1]
    exact List.take_sublist _ _
  · rw [if_neg hn] at h
    by_cases hr : (candidates.filter (fun e => decide (e.name ∈ used))).isEmpty = true
    · rw [if_pos hr, Prod.mk.injEq] at h
      rw [← h.1]
    · rw [if_neg hr, Prod.mk.injEq] at h
      exact absurd h.2 (by simp)

/-- A non-recycling draw takes only candidates whose names are not yet
used this week. -/
lemma pickForGroup_false_props (candidates : List ExerciseEntry) (n : Nat)
    (used : List String) (picked : List ExerciseEntry)
    (h : pickForGroup candidates n used = (picked, false)) :
    List.Sublist picked candidates ∧ ∀ e ∈ picked, e.name ∉ used := by
  have hs := pickForGroup_false_sublist candidates n used picked h
  refine ⟨hs.trans (List.filter_sublist _), ?_⟩
  intro e he
  have h1 := List.of_mem_filter (hs.subset he)
  simpa using h1

/-- The recycle report only grows while the week's slots are processed. -/
lemma processSlots_recycled_mono (lib : List ExerciseEntry) (fl : String)
    (eqp : List String) :
    ∀ (slots : List (String × String × Nat)) (used recycled : List String)
      (entries : List (String × String × List String))
      (recFinal : List String),
      processSlots lib fl eqp slots used recycled = some (entries, recFinal) →
      ∀ x ∈ recycled, x ∈ recFinal := by
  intro slots
  induction slots with
  | nil =>
    intro used recycled entries recFinal h x hx
    simp only [processSlots, Option.some.injEq, Prod.mk.injEq] at h
    exact h.2 ▸ hx
  | cons s rest ih =>
    obtain ⟨d, g, n⟩ := s
    intro used recycled entries recFinal h x hx
    unfold processSlots at h
    split at h
    · exact absurd h (by simp)
    · split at h
      · exact absurd h (by simp)
      · rename_i entries2 recF2 heq
        rw [Option.some.injEq, Prod.mk.injEq] at h
        rw [← h.2]
        by_cases hb : (pickForGroup (exercisePool lib fl eqp g) n used).2 = true
        · rw [if_pos hb] at heq
          exact ih _ _ _ _ heq x (List.mem_cons_of_mem g hx)
        · rw [if_neg hb] at heq
          exact ih _ _ _ _ heq x hx

/-- The function `scheduledNames` distributes over consing one slot's
entry. -/
lemma scheduledNames_cons (d g : String) (pn : List String)
    (es : List (String × String × List String)) :
    scheduledNames ((d, g, pn) :: es) = pn ++ scheduledNames es := rfl

/-- If the week's slots are processed with an empty final recycle report,
the scheduled exercise names are pairwise distinct and disjoint from the
names already used. -/
lemma processSlots_nodup (lib : List ExerciseEntry) (fl : String)
    (eqp : List String) (hlib : (lib.map (fun e => e.name)).Nodup) :
    ∀ (slots : List (String × String × Nat)) (used recycled : List String)
      (entries : List (String × String × List String)),
      processSlots lib fl eqp slots used recycled = some (entries, []) →
      (scheduledNames entries).Nodup
        ∧ ∀ x ∈ scheduledNames entries, x ∉ used := by
  intro slots
  induction slots with
  | nil =>
    intro used recycled entries h
    simp only [processSlots, Option.some.injEq, Prod.mk.injEq] at h
    rw [← h.1]
    exact ⟨List.nodup_nil, by simp [scheduledNames]⟩
  | cons s rest ih =>
    obtain ⟨d, g, n⟩ := s
    intro used recycled entries h
    unfold processSlots at h
    split at h
    · exact absurd h (by simp)
    · split at h
      · exact absurd h (by simp)
      · rename_i entries2 recF2 heq
        rw [Option.some.injEq, Prod.mk.injEq] at h
        obtain ⟨he, hrec⟩ := h
        subst hrec
        rw [← he]
        by_cases hb : (pickForGroup (exercisePool lib fl eqp g) n used).2 = true
        · rw [if_pos hb] at heq
          have := processSlots_recycled_mono lib fl eqp _ _ _ _ _ heq g
            (List.mem_cons_self g recycled)
          exact absurd this (List.not_mem_nil g)
        · rw [if_neg hb] at heq
          have hb2 : (pickForGroup (exercisePool lib fl eqp g) n used).2
              = false := by simpa using hb
          have hpick : pickForGroup (exercisePool lib fl eqp g) n used
              = ((pickForGroup (exercisePool lib fl eqp g) n used).1, false) := by
            rw [← hb2]
          obtain ⟨hsub, hfresh⟩ := pickForGroup_false_props _ _ _ _ hpick
          obtain ⟨ihn, ihu⟩ := ih _ _ _ heq
          have hpn : ((pickForGroup (exercisePool lib fl eqp g) n
              used).1.map (fun e => e.name)).Nodup := by
            refine hlib.sublist (List.Sublist.map _ ?_)
            exact hsub.trans (List.filter_sublist _)
          rw [scheduledNames_cons]
          constructor
          · refine hpn.append ihn ?_
            intro a ha1 ha2
            exact (ihu a ha2) (List.mem_append.mpr (Or.inl ha1))
          · intro x hx
            rcases List.mem_append.mp hx with hx1 | hx2
            · obtain ⟨e, hee, hen⟩ := List.mem_map.mp hx1
              exact hen ▸ hfresh e hee
            · intro hxu
              exact (ihu x hx2) (List.mem_append.mpr (Or.inr hxu))

/-- C7: a successfully generated workout schedule whose recycle report is
empty never schedules the same exercise twice within the week; under
distinct library entry names, any repetition can only occur together with a
non-empty recycled-groups report. -/
theorem C7_no_repeat_unless_recycled (fitness_level : String)
    (goals available_days equipment : List String) (time_per_session : Nat)
    (muscle_groups : List (String × List String)) (lib : List ExerciseEntry)
    (sched : List (String × String × List String))
    (hlib : (lib.map (fun e => e.name)).Nodup)
    (h : generate_workout_plan fitness_level goals available_days equipment
        time_per_session muscle_groups lib = some (sched, [])) :
    (scheduledNames sched).Nodup := by
  unfold generate_workout_plan at h
  split at h
  · exact absurd h (by simp)
  · exact (processSlots_nodup lib fitness_level equipment hlib _ [] [] sched h).1

/-- Witness for C7 at concrete inputs: a two-day beginner bodyweight plan
over a two-exercise library succeeds with an empty recycle report and
pairwise-distinct scheduled exercises. -/
theorem C7_no_repeat_unless_recycled_witness :
    (scheduledNames [("Monday", "Chest", ["Pushup"]),
      ("Wednesday", "Legs", ["Squat"])]).Nodup :=
  C7_no_repeat_unless_recycled "Beginner" ["General Fitness"]
    ["Monday", "Wednesday"] ["None/Bodyweight"] 30
    [("Monday", ["Chest"]), ("Wednesday", ["Legs"])] sampleExerciseLib
    [("Monday", "Chest", ["Pushup"]), ("Wednesday", "Legs", ["Squat"])]
    (by decide) (by decide)

/-- C8 (code evaluation): the "Save Current Meal Plan" handler of `app.py`
calls `save_meal_plan` but performs no validation step — the imported
`validate_meal_plan` appears nowhere on the save path. -/
theorem C8_save_path_skips_validation :
    SaveAction.validatePlan ∉ saveCurrentMealPlanPath
    ∧ SaveAction.saveMealPlan ∈ saveCurrentMealPlanPath := by
  constructor
  · intro h
    simp [saveCurrentMealPlanPath] at h
  · simp [saveCurrentMealPlanPath]

/-- C9: `validate_exercise_library` returns `True` on every input, so the
exercise-library gate in `generate_new_workout` never blocks generation. -/
theorem C9_validate_exercise_library_always_true
    (lib : List (String × List String)) :
    validate_exercise_library lib = true ∧ libraryGateBlocks lib = false :=
  ⟨rfl, rfl⟩

/-- C10: when a current meal plan already exists in session state,
`calculate_nutrition` does not invoke `generate_meal_plan` and leaves the
stored plan unchanged, whatever dietary restrictions or cuisine preferences
are entered. -/
theorem C10_existing_plan_preserved
    (p : List (String × List (String × MealItem)))
    (dailyCalories dailyProtein : ℚ) (restrictions prefs : List String)
    (lib : List MealItem) :
    calculateNutritionPlanStep (some p) dailyCalories dailyProtein
      restrictions prefs lib = (some p, false) :=
  rfl

end MosesFitness
